import Mathlib

/-!
Verification of the weather-log aggregation and derived-analytics engine of
`src/app.py` (a Streamlit weather logger).  The Python code is shallowly
embedded: session state becomes explicit state passing, Python floats become
rationals, dictionaries with a fixed key set become structures, and fallible
network interaction becomes a sum type of outcomes fed to the handler.
-/

namespace WeatherApp

/-- One logged weather reading.  Field names and order follow the dictionary
literal built in `get_weather_data` (src/app.py lines 134-153); the demo
records (lines 354-373 and 395-414) use the same keys.  Python floats/ints are
modelled as `ℚ`; timestamps are carried as their rendered text since no claim
computes with them. -/
structure WeatherEntry where
  timestamp : String
  city : String
  country : String
  temperature : ℚ
  feels_like : ℚ
  humidity : ℚ
  pressure : ℚ
  description : String
  main : String
  wind_speed : ℚ
  wind_direction : ℚ
  visibility : ℚ
  clouds : ℚ
  sunrise : String
  sunset : String
  coord_lat : ℚ
  coord_lon : ℚ
  status : String
deriving DecidableEq, Repr


/-- The session's observation log, `st.session_state.weather_logs`. -/
abbrev WeatherLog := List WeatherEntry


/-- The function `add_weather_log` (src/app.py lines 188-190):
`weather_logs.append(entry)`, modelled as state passing. -/
def add_weather_log (log : WeatherLog) (e : WeatherEntry) : WeatherLog :=
  log ++ [e]


/-- The Clear-All-Logs action (src/app.py line 293):
`st.session_state.weather_logs = []`. -/
def clear_logs (_log : WeatherLog) : WeatherLog := []


/-- A sequence of `add_weather_log` calls applied in order. -/
def add_all (log : WeatherLog) (es : List WeatherEntry) : WeatherLog :=
  es.foldl add_weather_log log


/-- The Latest-Weather lookup (src/app.py lines 438-439 and 264-267):
`weather_logs[-1]` guarded by a non-emptiness check, i.e. the last entry when
the log is non-empty and an explicit empty result otherwise. -/
def latest_weather (log : WeatherLog) : Option WeatherEntry :=
  log.getLast?


/-- Closed witness for C8 at a concrete log. -/
def demoEntry : WeatherEntry :=
  { timestamp := "2024-01-01 12:00"
    city := "London"
    country := "XX"
    temperature := 45/2
    feels_like := 241/10
    humidity := 65
    pressure := 1013
    description := "partly cloudy"
    main := "Clouds"
    wind_speed := 16/5
    wind_direction := 180
    visibility := 10
    clouds := 40
    sunrise := "06:30"
    sunset := "18:45"
    coord_lat := 515074/10000
    coord_lon := -1278/10000
    status := "demo" }


/-! Weather alerts (src/app.py lines 524-539) -/

/-- A typed weather alert; the Python code renders these as strings
(`f"🔥 Extreme heat in {city}: {t}°C"` etc.), here the constructor carries the
same data (city plus the offending value). -/
inductive WeatherAlert where
  | extremeHeat (city : String) (temperature : ℚ)
  | extremeCold (city : String) (temperature : ℚ)
  | strongWind (city : String) (wind_speed : ℚ)
  | highHumidity (city : String) (humidity : ℚ)
deriving DecidableEq, Repr


/-- One iteration of the alert loop (src/app.py lines 525-533).  Note the
source uses `if`/`elif`/`elif`/`elif`: the four threshold rules are tried in
order and at most one alert is appended per entry. -/
def alert_step (acc : List WeatherAlert) (row : WeatherEntry) : List WeatherAlert :=
  if row.temperature > 35 then acc ++ [.extremeHeat row.city row.temperature]
  else if row.temperature < -10 then acc ++ [.extremeCold row.city row.temperature]
  else if row.wind_speed > 15 then acc ++ [.strongWind row.city row.wind_speed]
  else if row.humidity > 90 then acc ++ [.highHumidity row.city row.humidity]
  else acc


/-- The alert scan over the whole log (src/app.py lines 524-533):
`alerts = []` followed by the row loop. -/
def scan_alerts (log : WeatherLog) : List WeatherAlert :=
  log.foldl alert_step []


/-- The first threshold rule matched by an entry under the source's
`if`/`elif` priority (heat, cold, wind, humidity), or `none` when no rule
matches.  Used to characterise `scan_alerts`. -/
def first_alert (row : WeatherEntry) : Option WeatherAlert :=
  if row.temperature > 35 then some (.extremeHeat row.city row.temperature)
  else if row.temperature < -10 then some (.extremeCold row.city row.temperature)
  else if row.wind_speed > 15 then some (.strongWind row.city row.wind_speed)
  else if row.humidity > 90 then some (.highHumidity row.city row.humidity)
  else none


/-- An entry matching the heat rule (40 > 35) and the wind rule (20 > 15)
simultaneously. -/
def hotWindyEntry : WeatherEntry :=
  { demoEntry with city := "Gale", temperature := 40, wind_speed := 20 }


/-- The surfaced alert area of Tab 2 (src/app.py lines 535-539): either the
explicit no-alerts card, or the rendered list `alerts[-5:]`. -/
inductive AlertSurface where
  | noAlerts
  | shown (alerts : List WeatherAlert)
deriving DecidableEq, Repr


/-- Alert surfacing (src/app.py lines 535-539): if any alerts were collected
show the last five (`alerts[-5:]`), otherwise show the explicit
"No weather alerts at this time" state. -/
def surface_alerts (alerts : List WeatherAlert) : AlertSurface :=
  if alerts.isEmpty then .noAlerts
  else .shown (alerts.drop (alerts.length - 5))


/-! Per-city aggregate statistics (src/app.py lines 510-519) -/

/-- Round-half-to-even to an integer, the tie-breaking rule numpy (and hence
pandas `.round`) uses. -/
def round_half_even (x : ℚ) : ℤ :=
  let f := ⌊x⌋
  let r : ℚ := x - f
  if r < 1/2 then f
  else if 1/2 < r then f + 1
  else if 2 ∣ f then f else f + 1


/-- pandas `.round(2)`: round to 2 decimal places (ties to even). -/
def round2 (x : ℚ) : ℚ := round_half_even (x * 100) / 100


/-- Arithmetic mean, pandas `'mean'` aggregation (meaningful on non-empty
input; pandas only applies it to non-empty groups). -/
def mean (xs : List ℚ) : ℚ := xs.sum / xs.length


/-- Minimum of a group, pandas `'min'` aggregation. -/
def list_min : List ℚ → ℚ
  | [] => 0
  | x :: rest => rest.foldl min x


/-- Maximum of a group, pandas `'max'` aggregation. -/
def list_max : List ℚ → ℚ
  | [] => 0
  | x :: rest => rest.foldl max x


/-- One row of the city-comparison table (src/app.py lines 511-516): the six
aggregates `temperature: mean/min/max, humidity/wind_speed/pressure: mean`,
each rounded to 2 decimal places by the trailing `.round(2)`. -/
structure CityStats where
  avg_temp : ℚ
  min_temp : ℚ
  max_temp : ℚ
  avg_humidity : ℚ
  avg_wind : ℚ
  avg_pressure : ℚ
deriving DecidableEq, Repr


/-- The distinct cities of the log, `df['city'].unique()`, in first-appearance
order.  (pandas `groupby` then lists group keys alphabetically; the claims are
insensitive to the row order of the table, so first-appearance order is kept
here to stay executable.) -/
def unique_cities (log : WeatherLog) : List String :=
  log.foldl (fun acc e => if e.city ∈ acc then acc else acc ++ [e.city]) []


/-- The log entries of one group, `df.groupby('city')`'s group for key `c`. -/
def entries_for (log : WeatherLog) (c : String) : WeatherLog :=
  log.filter (fun e => e.city = c)


/-- The aggregates of one city group (src/app.py lines 511-516). -/
def city_stats_row (es : List WeatherEntry) : CityStats :=
  { avg_temp := round2 (mean (es.map (·.temperature)))
    min_temp := round2 (list_min (es.map (·.temperature)))
    max_temp := round2 (list_max (es.map (·.temperature)))
    avg_humidity := round2 (mean (es.map (·.humidity)))
    avg_wind := round2 (mean (es.map (·.wind_speed)))
    avg_pressure := round2 (mean (es.map (·.pressure))) }


/-- The city-comparison view (src/app.py lines 510-519): the per-city table is
computed and shown only under the guard `len(df['city'].unique()) > 1`;
otherwise nothing is produced. -/
def city_comparison (log : WeatherLog) : Option (List (String × CityStats)) :=
  if 1 < (unique_cities log).length then
    some ((unique_cities log).map (fun c => (c, city_stats_row (entries_for log c))))
  else none


def parisEntry : WeatherEntry := { demoEntry with city := "Paris", temperature := 36 }


def berlinEntry (t : ℚ) : WeatherEntry := { demoEntry with city := "Berlin", temperature := t }


def statsDemoLog : WeatherLog :=
  [demoEntry, parisEntry, berlinEntry 10, berlinEntry 20, berlinEntry 30]


/-! Decimal rendering and parsing of numeric fields.

`save_weather_logs_csv` stringifies the DataFrame; Python renders its numbers
as (shortest round-tripping) decimal numerals.  The renderer below produces
the exact decimal numeral of a rational whose denominator divides a power of
ten — which covers every value a Python float with a finite decimal `repr`
takes — and the parser inverts it. -/

/-- The numeric value of a digit character (`ord(c) - ord('0')`). -/
def charDigit (c : Char) : ℕ := c.toNat - 48


/-- Big-endian decimal digits of `n` (with `fuel ≥ n` as structural-recursion
fuel), least-significant first before the final reverse in `natChars`. -/
def natDigitsAux : ℕ → ℕ → List Char
  | 0, _ => []
  | _ + 1, 0 => []
  | fuel + 1, n + 1 => Nat.digitChar ((n + 1) % 10) :: natDigitsAux fuel ((n + 1) / 10)


/-- The decimal numeral of a natural number. -/
def natChars (n : ℕ) : List Char :=
  if n = 0 then ['0'] else (natDigitsAux n n).reverse


/-- Parse a big-endian decimal numeral. -/
def parseNatChars (cs : List Char) : ℕ :=
  Nat.ofDigits 10 ((cs.map charDigit).reverse)


/-- The ten digit characters. -/
def digitChars : List Char := ['0', '1', '2', '3', '4', '5', '6', '7', '8', '9']


/-- The smallest `k ≤ 12` with `d ∣ 10 ^ k`, i.e. the number of decimal
places needed for a rational with reduced denominator `d` (none if `d` has a
prime factor other than 2 and 5 beyond that range; a Python float whose
`repr` is a plain decimal always has one). -/
def decExp (d : ℕ) : Option ℕ :=
  (List.range 13).find? fun k => decide (d ∣ 10 ^ k)


/-- The decimal numeral of an integer. -/
def intChars (m : ℤ) : List Char :=
  if m < 0 then '-' :: natChars m.natAbs else natChars m.natAbs


/-- The numeral of the scaled integer `m` with a decimal point before its
last `k + 1` digits, zero-padded so an integer part is always present. -/
def pointedChars (m : ℤ) (k : ℕ) : List Char :=
  let s := natChars m.natAbs
  let s' := List.replicate (k + 2 - s.length) '0' ++ s
  (if m < 0 then ['-'] else []) ++
    s'.take (s'.length - (k + 1)) ++ '.' :: s'.drop (s'.length - (k + 1))


/-- The decimal numeral of a rational with `decExp`-many decimal places:
the digits of `q.num * 10^k / q.den` with a point before the last `k` of
them. -/
def ratChars (q : ℚ) : List Char :=
  match decExp q.den with
  | none => []
  | some 0 => intChars q.num
  | some (k + 1) => pointedChars (q.num * 10 ^ (k + 1) / (q.den : ℤ)) k


/-- The textual rendering of a numeric field value. -/
def renderRat (q : ℚ) : String := ⟨ratChars q⟩


/-- Parse an unsigned decimal numeral, with or without a decimal point. -/
def parseUnsigned (cs : List Char) : ℚ :=
  match cs.splitOn '.' with
  | [ip, fp] =>
    ((parseNatChars ip : ℚ) * 10 ^ fp.length + (parseNatChars fp : ℚ)) / 10 ^ fp.length
  | _ => (parseNatChars cs : ℚ)


/-- Parse a decimal numeral with optional leading minus sign. -/
def parseRatChars (cs : List Char) : ℚ :=
  if cs.head? = some '-' then -parseUnsigned cs.tail else parseUnsigned cs


/-- Parse a numeric field back from its CSV cell text. -/
def parseRat (s : String) : ℚ := parseRatChars s.data


/-! CSV export (src/app.py lines 210-215).

`save_weather_logs_csv` builds `pd.DataFrame(weather_logs)` and returns
`df.to_csv(index=False)`.  The DataFrame's columns are the dictionary keys of
the entries in insertion order (the 18 keys of `WeatherEntry`); `to_csv`
emits a header line and one line per entry, comma-separated, each terminated
by a newline, quoting minimally: a field containing the separator, the quote
character or a line break is wrapped in double quotes with inner quotes
doubled (`csv.QUOTE_MINIMAL`), all other fields are emitted verbatim. -/

/-- Does `to_csv` have to quote this field? -/
def csv_quote_needed (s : String) : Bool :=
  s.data.any fun c => c == ',' || c == '"' || c == '\n' || c == '\r'


/-- Minimal quoting of one field (csv `QUOTE_MINIMAL`). -/
def csv_escape (s : String) : String :=
  if csv_quote_needed s then
    ⟨'"' :: (s.data.map fun c => if c = '"' then ['"', '"'] else [c]).flatten ++ ['"']⟩
  else s


/-- One CSV line: the escaped fields joined by commas. -/
def csv_row (cells : List String) : String :=
  ⟨List.intercalate [','] (cells.map fun s => (csv_escape s).data)⟩


/-- The DataFrame's column names: the entry dictionary keys in insertion
order (src/app.py lines 134-153). -/
def header_cells : List String :=
  ["timestamp", "city", "country", "temperature", "feels_like", "humidity", "pressure",
   "description", "main", "wind_speed", "wind_direction", "visibility", "clouds",
   "sunrise", "sunset", "coord_lat", "coord_lon", "status"]


/-- The rendered cells of one entry, in column order. -/
def entry_cells (e : WeatherEntry) : List String :=
  [e.timestamp, e.city, e.country, renderRat e.temperature, renderRat e.feels_like,
   renderRat e.humidity, renderRat e.pressure, e.description, e.main,
   renderRat e.wind_speed, renderRat e.wind_direction, renderRat e.visibility,
   renderRat e.clouds, e.sunrise, e.sunset, renderRat e.coord_lat, renderRat e.coord_lon,
   e.status]


/-- The export `save_weather_logs_csv` (src/app.py lines 210-215): the CSV
text of the whole log, or the empty string for an empty log. -/
def save_weather_logs_csv (log : WeatherLog) : String :=
  if log.isEmpty then ""
  else String.join ((csv_row header_cells :: log.map fun e => csv_row (entry_cells e)).map (· ++ "\n"))


/-- Re-parse one CSV line by splitting on commas (the re-parsing procedure
named by the claim). -/
def parse_csv_row (s : String) : List String :=
  (s.data.splitOn ',').map fun l => (⟨l⟩ : String)


/-- A field value that needs no quoting. -/
def CleanCell (s : String) : Prop :=
  ∀ c ∈ s.data, c ≠ ',' ∧ c ≠ '"' ∧ c ≠ '\n' ∧ c ≠ '\r'


instance (s : String) : Decidable (CleanCell s) := by
  unfold CleanCell
  infer_instance


/-- A live-style entry whose description contains an embedded comma
(a real OpenWeatherMap description can, e.g. "light rain, mist"). -/
def rainyEntry : WeatherEntry :=
  { timestamp := "2024-01-01 12:00:00"
    city := "London"
    country := "GB"
    temperature := 7
    feels_like := 5
    humidity := 81
    pressure := 1012
    description := "light rain, mist"
    main := "Rain"
    wind_speed := 4
    wind_direction := 200
    visibility := 9
    clouds := 90
    sunrise := "2024-01-01 08:06:00"
    sunset := "2024-01-01 16:01:00"
    coord_lat := 51
    coord_lon := 0
    status := "success" }


/-- A live-style entry with a decimal temperature and clean text fields, for
evaluating the export round trip concretely (`⟨45, 2, _, _⟩` is 22.5). -/
def csvEntry : WeatherEntry :=
  { timestamp := "2024-01-02 09:30:00"
    city := "Oslo"
    country := "NO"
    temperature := ⟨45, 2, by decide, by decide⟩
    feels_like := -3
    humidity := 70
    pressure := 1020
    description := "clear sky"
    main := "Clear"
    wind_speed := 5
    wind_direction := 90
    visibility := 10
    clouds := 0
    sunrise := "2024-01-02 09:17:00"
    sunset := "2024-01-02 15:21:00"
    coord_lat := 59
    coord_lon := 10
    status := "success" }


/-! Condition distribution and the analytics tab's empty-log guard
(src/app.py lines 474-542) -/

/-- The distinct values of the `main` column in first-appearance order. -/
def unique_mains (log : WeatherLog) : List String :=
  log.foldl (fun acc e => if e.main ∈ acc then acc else acc ++ [e.main]) []


/-- The condition distribution `df['main'].value_counts()` (src/app.py
line 496): entry count per coarse condition category.  (pandas orders the
counts descending; the claims are insensitive to row order.) -/
def condition_counts (log : WeatherLog) : List (String × ℕ) :=
  (unique_mains log).map fun m => (m, (log.filter fun e => e.main = m).length)


/-- What Tab 2 renders: the explicit no-data message on an empty log
(src/app.py line 542), otherwise the analytics derived from the log. -/
inductive Tab2View where
  | noData
  | analytics (cityCmp : Option (List (String × CityStats))) (conds : List (String × ℕ))
      (alerts : AlertSurface)
deriving DecidableEq, Repr


/-- Tab 2 (src/app.py lines 474-542): guarded by `if weather_logs:`. -/
def tab2_analytics (log : WeatherLog) : Tab2View :=
  if log.isEmpty then .noData
  else .analytics (city_comparison log) (condition_counts log) (surface_alerts (scan_alerts log))


/-! Forecast extraction (src/app.py lines 167-186 and 555-561) -/

/-- One forecast sample: provider bucket time (Unix seconds) and forecast
temperature. -/
structure ForecastPoint where
  dt : ℤ
  temp : ℚ
deriving DecidableEq, Repr


/-- Modelled from the spec: the source file breaks off mid-statement at
line 561 (`for item in forecast_data['list'][:20]:`), so the body of the
forecast-window filter is not in the repository.  The `[:20]` slice is from
the source; per the spec the loop keeps the points whose time falls within
the 12-hour forward window from call time and returns at most 12 points,
preserving provider order. -/
def process_forecast (now : ℤ) (items : List ForecastPoint) : List ForecastPoint :=
  (((items.take 20).filter fun p =>
    decide (now ≤ p.dt) && decide (p.dt ≤ now + 12 * 3600)).take 12)


/-! Current-weather fetch (src/app.py lines 119-165 and 377-387) -/

/-- The parts of the provider's current-weather JSON body the handler reads,
each optional — a missing key raises `KeyError` in Python, which the
handler's blanket `except` turns into a tagged error. -/
structure WeatherJson where
  name : Option String
  sys_country : Option String
  main_temp : Option ℚ
  main_feels_like : Option ℚ
  main_humidity : Option ℚ
  main_pressure : Option ℚ
  weather0_description : Option String
  weather0_main : Option String
  wind_speed : Option ℚ
  wind_deg : Option ℚ
  visibility : Option ℚ
  clouds_all : Option ℚ
  sys_sunrise : Option ℤ
  sys_sunset : Option ℤ
  coord_lat : Option ℚ
  coord_lon : Option ℚ
  message : Option String
deriving DecidableEq, Repr


/-- What one `requests.get` call can come back with. -/
inductive HttpOutcome where
  | timeout
  | netError (msg : String)
  | response (status : ℕ) (body : WeatherJson)


/-- Rendering of the provider's Unix timestamps (`datetime.fromtimestamp`);
the claims never inspect the rendered text. -/
def fmt_ts (t : ℤ) : String := toString t


/-- The dictionary built from a 200 response (src/app.py lines 134-153):
every plain `data[...]` access requires the field (a missing one raises and
is caught), `data['wind'].get('deg', 0)` defaults to 0, and
`data.get('visibility', 0) / 1000` defaults to 0 then converts metres to
kilometres. -/
def extract_entry (now : String) (d : WeatherJson) : Option WeatherEntry :=
  match d.name, d.sys_country, d.main_temp, d.main_feels_like, d.main_humidity,
      d.main_pressure, d.weather0_description, d.weather0_main, d.wind_speed,
      d.clouds_all, d.sys_sunrise, d.sys_sunset, d.coord_lat, d.coord_lon with
  | some name, some country, some temp, some feels, some hum, some press,
      some desc, some mn, some wspeed, some cl, some sr, some ss, some lat, some lon =>
    some { timestamp := now
           city := name
           country := country
           temperature := temp
           feels_like := feels
           humidity := hum
           pressure := press
           description := desc
           main := mn
           wind_speed := wspeed
           wind_direction := d.wind_deg.getD 0
           visibility := (d.visibility.getD 0) / 1000
           clouds := cl
           sunrise := fmt_ts sr
           sunset := fmt_ts ss
           coord_lat := lat
           coord_lon := lon
           status := "success" }
  | _, _, _, _, _, _, _, _, _, _, _, _, _, _ => none


/-- The result a fetch hands back to the caller: a tagged success or a
tagged error message, never an unhandled fault. -/
inductive FetchResult where
  | ok (e : WeatherEntry)
  | error (msg : String)
deriving DecidableEq, Repr


/-- The fetch handler `get_weather_data` (src/app.py lines 119-165): 200 responses are
normalized (a missing expected field falls into the blanket handler), non-200
responses report the provider's message, timeouts and transport errors get
their own tags. -/
def get_weather_data (now : String) (o : HttpOutcome) : FetchResult :=
  match o with
  | .timeout => .error ("Request timed out")
  | .netError m => .error ("Network error: " ++ m)
  | .response status d =>
    if status = 200 then
      match extract_entry now d with
      | some e => .ok e
      | none => .error ("Error: missing expected field")
    else .error ("API Error: " ++ (d.message.getD ("Unknown error")))


/-- The Tab 1 fetch flow (src/app.py lines 377-387): one call to
`get_weather_data`; on success the entry is appended to the log, on failure
an error card is shown and the log is untouched.  The `rest` stream of
not-yet-consumed provider responses makes the absence of retries explicit. -/
def fetch_and_log (now : String) (o : HttpOutcome) (rest : List HttpOutcome)
    (log : WeatherLog) : WeatherLog × FetchResult × List HttpOutcome :=
  match get_weather_data now o with
  | .ok e => (add_weather_log log e, .ok e, rest)
  | .error m => (log, .error m, rest)


/-- A 200 body missing the optional `wind.deg` and `visibility` keys. -/
def sparseJson : WeatherJson :=
  { name := some ("Lagos")
    sys_country := some ("NG")
    main_temp := some 31
    main_feels_like := some 34
    main_humidity := some 80
    main_pressure := some 1009
    weather0_description := some ("haze")
    weather0_main := some ("Haze")
    wind_speed := some 3
    wind_deg := none
    visibility := none
    clouds_all := some 75
    sys_sunrise := some 1700000000
    sys_sunset := some 1700040000
    coord_lat := some 6
    coord_lon := some 3
    message := none }


/-- The entry `extract_entry` produces from `sparseJson`. -/
def sparseEntry : WeatherEntry :=
  { timestamp := "2024-01-01 12:00"
    city := "Lagos"
    country := "NG"
    temperature := 31
    feels_like := 34
    humidity := 80
    pressure := 1009
    description := "haze"
    main := "Haze"
    wind_speed := 3
    wind_direction := 0
    visibility := 0 / 1000
    clouds := 75
    sunrise := fmt_ts 1700000000
    sunset := fmt_ts 1700040000
    coord_lat := 6
    coord_lon := 3
    status := "success" }


/-! Theorems -/

theorem add_all_append (log : WeatherLog) (es : List WeatherEntry) :
    add_all log es = log ++ es := by
  induction es generalizing log with
  | nil => simp [add_all]
  | cons e es ih =>
    simp only [add_all, List.foldl_cons] at *
    rw [ih, add_weather_log, List.append_assoc]
    rfl


/-- C5: the observation log is append-only.  `add_weather_log` appends one
entry at the end (it is total, so it never fails), `clear_logs` resets the log
to empty, and after any sequence of append calls starting from any log the
whole log reads back as the old contents followed by exactly the appended
entries in call order, with length equal to the call count. -/
theorem observation_log_append_only (log : WeatherLog) (es : List WeatherEntry) :
    add_all log es = log ++ es ∧
    (add_all [] es = es) ∧
    (add_all [] es).length = es.length ∧
    (∀ e, add_weather_log log e = log ++ [e]) ∧
    clear_logs log = [] := by
  refine ⟨add_all_append log es, ?_, ?_, fun e => rfl, rfl⟩
  · simpa using add_all_append [] es
  · simp [add_all_append]


/-- C8: the latest-observation view returns the last-appended entry on a
non-empty log and an explicit empty result (`none`) on an empty log. -/
theorem latest_weather_spec (log : WeatherLog) (e : WeatherEntry) :
    latest_weather [] = none ∧
    latest_weather (add_weather_log log e) = some e ∧
    (∀ h : log ≠ [], latest_weather log = some (log.getLast h)) := by
  refine ⟨rfl, ?_, fun h => List.getLast?_eq_getLast log h⟩
  simp [latest_weather, add_weather_log]


theorem latest_weather_spec_witness :
    latest_weather (add_weather_log [] demoEntry) = some demoEntry :=
  (latest_weather_spec [] demoEntry).2.1


theorem alert_step_eq (acc : List WeatherAlert) (row : WeatherEntry) :
    alert_step acc row = acc ++ (first_alert row).toList := by
  unfold alert_step first_alert
  split
  · rfl
  · split
    · rfl
    · split
      · rfl
      · split
        · rfl
        · simp


theorem scan_alerts_foldl (log : WeatherLog) (acc : List WeatherAlert) :
    log.foldl alert_step acc = acc ++ log.filterMap first_alert := by
  induction log generalizing acc with
  | nil => simp
  | cons row rest ih =>
    simp only [List.foldl_cons, List.filterMap_cons, ih, alert_step_eq]
    cases h : first_alert row <;> simp [h]


/-- `scan_alerts` emits, per entry in log order, at most one alert: the first
matched rule under the heat/cold/wind/humidity priority. -/
theorem scan_alerts_eq_filterMap (log : WeatherLog) :
    scan_alerts log = log.filterMap first_alert :=
  by simpa using scan_alerts_foldl log []


/-- C1 counterexample: the claim says an entry with temperature 40 and
wind_speed 20 yields both an ExtremeHeat and a StrongWind alert; in the code
the rules are chained with `elif`, so the scan of such an entry yields the
heat alert only and no StrongWind alert is ever emitted for it. -/
theorem alerts_not_independent_counterexample :
    hotWindyEntry.temperature > 35 ∧ hotWindyEntry.wind_speed > 15 ∧
    scan_alerts [hotWindyEntry] = [.extremeHeat ("Gale") 40] ∧
    WeatherAlert.strongWind ("Gale") 20 ∉ scan_alerts [hotWindyEntry] := by
  refine ⟨by norm_num [hotWindyEntry, demoEntry], by norm_num [hotWindyEntry, demoEntry], ?_, ?_⟩ <;>
    norm_num [scan_alerts, alert_step, hotWindyEntry, demoEntry] <;> decide


/-- C1 amended: the alert scan tries the four threshold rules in the fixed
priority heat, cold, wind, humidity and emits at most one alert per entry —
the first rule matched — in log order; in particular an entry with
temperature 40 and wind_speed 20 yields exactly one ExtremeHeat alert and no
StrongWind alert. -/
theorem alert_scan_first_match_only (log : WeatherLog) :
    scan_alerts log = log.filterMap first_alert ∧
    (∀ row : WeatherEntry, row.temperature > 35 → row.wind_speed > 15 →
      scan_alerts [row] = [.extremeHeat row.city row.temperature]) ∧
    (∀ row : WeatherEntry, scan_alerts [row] = (first_alert row).toList) := by
  refine ⟨scan_alerts_eq_filterMap log, ?_, ?_⟩
  · intro row ht _hw
    simp [scan_alerts, alert_step, ht]
  · intro row
    simpa using scan_alerts_eq_filterMap [row]


theorem alert_scan_first_match_only_witness :
    scan_alerts [hotWindyEntry] = [.extremeHeat ("Gale") 40] := by
  have h := (alert_scan_first_match_only [hotWindyEntry]).2.1 hotWindyEntry
    (by norm_num [hotWindyEntry, demoEntry]) (by norm_num [hotWindyEntry, demoEntry])
  simpa [hotWindyEntry, demoEntry] using h


/-- C7: the surfaced list is the at-most-5 most recent alerts in log order (a
suffix of the scan's output of length `min 5 total`), and when no entry
triggers any rule the engine reports the explicit no-alerts state — a
constructor distinct from any computed alert list. -/
theorem surface_alerts_spec (log : WeatherLog) :
    (surface_alerts (scan_alerts log) = .noAlerts ↔ scan_alerts log = []) ∧
    (∀ l, surface_alerts (scan_alerts log) = .shown l →
      l.length ≤ 5 ∧ l.length = min 5 (scan_alerts log).length ∧
      l <:+ scan_alerts log) ∧
    ((∀ row ∈ log, ¬row.temperature > 35 ∧ ¬row.temperature < -10 ∧
        ¬row.wind_speed > 15 ∧ ¬row.humidity > 90) →
      surface_alerts (scan_alerts log) = .noAlerts) := by
  constructor
  · unfold surface_alerts
    split
    · simp_all [List.isEmpty_iff]
    · constructor
      · intro h
        exact absurd h (by simp)
      · intro h
        simp_all [List.isEmpty_iff]
  constructor
  · intro l hl
    unfold surface_alerts at hl
    split at hl
    · exact absurd hl (by simp)
    · cases hl
      refine ⟨?_, ?_, List.drop_suffix _ _⟩
      · simp only [List.length_drop]
        omega
      · simp only [List.length_drop]
        have : ¬(scan_alerts log).isEmpty := by assumption
        rw [List.isEmpty_iff] at this
        have hpos : 0 < (scan_alerts log).length := List.length_pos.mpr this
        omega
  · intro hnone
    have hempty : scan_alerts log = [] := by
      rw [scan_alerts_eq_filterMap]
      apply List.filterMap_eq_nil_iff.mpr
      intro row hrow
      obtain ⟨h1, h2, h3, h4⟩ := hnone row hrow
      simp [first_alert, h1, h2, h3, h4]
    rw [hempty]
    rfl


theorem surface_alerts_spec_witness :
    surface_alerts (scan_alerts [demoEntry]) = .noAlerts :=
  (surface_alerts_spec [demoEntry]).2.2 (by
    intro row hrow
    simp only [List.mem_singleton] at hrow
    subst hrow
    norm_num [demoEntry])


/-- C4 counterexample: the claim promises per-city statistics for every
non-empty log, but the code guards the table with
`len(df['city'].unique()) > 1` (line 510): a non-empty single-city log
produces no statistics at all. -/
theorem city_stats_single_city_counterexample :
    ([demoEntry] : WeatherLog) ≠ [] ∧
    unique_cities [demoEntry] = ["London"] ∧
    city_comparison [demoEntry] = none := by
  refine ⟨by simp, rfl, rfl⟩


/-- C4 amended: whenever the log contains at least two distinct cities, the
city-comparison view produces a table keyed by the distinct cities of the log
whose row for city `c` holds mean/min/max temperature and mean humidity, wind
speed and pressure over `c`'s entries, each rounded to 2 decimal places; a
city with a single entry has min = max = mean, and a city with temperature
entries [10, 20, 30] has mean temperature 20. -/
theorem city_comparison_spec (log : WeatherLog)
    (h : 1 < (unique_cities log).length) :
    ∃ tbl, city_comparison log = some tbl ∧
      tbl.map Prod.fst = unique_cities log ∧
      (∀ p ∈ tbl, p.2 = city_stats_row (entries_for log p.1)) ∧
      (∀ p ∈ tbl, (entries_for log p.1).length = 1 →
        p.2.min_temp = p.2.avg_temp ∧ p.2.max_temp = p.2.avg_temp) ∧
      (∀ p ∈ tbl, (entries_for log p.1).map (·.temperature) = [10, 20, 30] →
        p.2.avg_temp = 20) := by
  have hfst : (Prod.fst ∘ fun c => (c, city_stats_row (entries_for log c))) = id := by
    funext c
    rfl
  refine ⟨_, by rw [city_comparison, if_pos h], by simp [hfst], ?_, ?_, ?_⟩
  · intro p hp
    simp only [List.mem_map] at hp
    obtain ⟨c, _, rfl⟩ := hp
    rfl
  · intro p hp hlen
    simp only [List.mem_map] at hp
    obtain ⟨c, _, rfl⟩ := hp
    obtain ⟨e, he⟩ : ∃ e, entries_for log c = [e] := List.length_eq_one.mp hlen
    simp [city_stats_row, he, list_min, list_max, mean]
  · intro p hp htemp
    simp only [List.mem_map] at hp
    obtain ⟨c, _, rfl⟩ := hp
    simp only [city_stats_row, htemp]
    norm_num [mean, round2, round_half_even]


theorem city_comparison_spec_witness :
    ∃ tbl, city_comparison statsDemoLog = some tbl ∧
      tbl.map Prod.fst = unique_cities statsDemoLog ∧
      (∀ p ∈ tbl, p.2 = city_stats_row (entries_for statsDemoLog p.1)) ∧
      (∀ p ∈ tbl, (entries_for statsDemoLog p.1).length = 1 →
        p.2.min_temp = p.2.avg_temp ∧ p.2.max_temp = p.2.avg_temp) ∧
      (∀ p ∈ tbl, (entries_for statsDemoLog p.1).map (·.temperature) = [10, 20, 30] →
        p.2.avg_temp = 20) :=
  city_comparison_spec statsDemoLog (by decide)


theorem natDigitsAux_eq (fuel : ℕ) :
    ∀ n, n ≤ fuel → natDigitsAux fuel n = (Nat.digits 10 n).map Nat.digitChar := by
  induction fuel with
  | zero =>
    intro n hn
    interval_cases n
    simp [natDigitsAux]
  | succ fuel ih =>
    intro n hn
    match n with
    | 0 => simp [natDigitsAux]
    | m + 1 =>
      rw [natDigitsAux, Nat.digits_def' (by norm_num : 1 < 10) (Nat.succ_pos m)]
      rw [List.map_cons]
      congr 1
      exact ih _ (by
        have := Nat.div_lt_self (Nat.succ_pos m) (by norm_num : 1 < 10)
        omega)


theorem charDigit_digitChar {d : ℕ} (h : d < 10) :
    charDigit (Nat.digitChar d) = d := by
  interval_cases d <;> decide


theorem digitChar_mem_digitChars {d : ℕ} (h : d < 10) :
    Nat.digitChar d ∈ digitChars := by
  interval_cases d <;> decide


theorem natChars_ne_nil (n : ℕ) : natChars n ≠ [] := by
  unfold natChars
  split
  · simp
  · simp only [ne_eq, List.reverse_eq_nil_iff]
    rw [natDigitsAux_eq n n le_rfl]
    simp_all [Nat.digits_ne_nil_iff_ne_zero]


theorem natChars_mem_digitChars {n : ℕ} {c : Char} (hc : c ∈ natChars n) :
    c ∈ digitChars := by
  unfold natChars at hc
  split at hc
  · simp only [List.mem_singleton] at hc
    subst hc
    decide
  · rw [natDigitsAux_eq n n le_rfl, List.mem_reverse, List.mem_map] at hc
    obtain ⟨d, hd, rfl⟩ := hc
    exact digitChar_mem_digitChars (Nat.digits_lt_base (by norm_num) hd)


theorem parseNatChars_natChars (n : ℕ) : parseNatChars (natChars n) = n := by
  unfold natChars
  split
  · subst n
    decide
  · unfold parseNatChars
    rw [natDigitsAux_eq n n le_rfl, List.map_reverse, List.reverse_reverse, List.map_map]
    have hmap : (Nat.digits 10 n).map (charDigit ∘ Nat.digitChar) = Nat.digits 10 n := by
      rw [show (Nat.digits 10 n).map (charDigit ∘ Nat.digitChar)
            = (Nat.digits 10 n).map id from ?_, List.map_id]
      apply List.map_congr_left
      intro d hd
      exact charDigit_digitChar (Nat.digits_lt_base (by norm_num) hd)
    rw [hmap, Nat.ofDigits_digits]


theorem mem_digitChars_ne {c : Char} (h : c ∈ digitChars) :
    c ≠ '-' ∧ c ≠ '.' ∧ c ≠ ',' ∧ c ≠ '"' ∧ c ≠ '\n' ∧ c ≠ '\r' := by
  fin_cases h <;> decide


theorem splitOn_dot_single {cs : List Char} (h : ∀ c ∈ cs, c ≠ '.') :
    cs.splitOn '.' = [cs] := by
  apply List.splitOnP_eq_single
  intro x hx
  simp [h x hx]


theorem splitOn_dot_pair {ip fp : List Char} (hip : ∀ c ∈ ip, c ≠ '.')
    (hfp : ∀ c ∈ fp, c ≠ '.') :
    (ip ++ '.' :: fp).splitOn '.' = [ip, fp] := by
  show (ip ++ '.' :: fp).splitOnP (· == '.') = [ip, fp]
  rw [List.splitOnP_first _ _ (fun x hx => by simp [hip x hx]) '.' (by simp) fp]
  congr 1
  exact splitOn_dot_single hfp


theorem parseNatChars_append (xs ys : List Char) :
    parseNatChars (xs ++ ys) = parseNatChars xs * 10 ^ ys.length + parseNatChars ys := by
  unfold parseNatChars
  rw [List.map_append, List.reverse_append, Nat.ofDigits_append]
  simp only [List.length_reverse, List.length_map]
  ring


theorem ofDigits_replicate_zero (j : ℕ) :
    Nat.ofDigits 10 (List.replicate j 0) = 0 := by
  induction j with
  | zero => rfl
  | succ j ih => simp [List.replicate_succ, Nat.ofDigits_cons, ih]


theorem parseNatChars_pad (j : ℕ) (xs : List Char) :
    parseNatChars (List.replicate j '0' ++ xs) = parseNatChars xs := by
  rw [parseNatChars_append]
  have : parseNatChars (List.replicate j '0') = 0 := by
    unfold parseNatChars
    rw [List.map_replicate, show charDigit '0' = 0 from rfl, List.reverse_replicate,
      ofDigits_replicate_zero]
  rw [this, zero_mul, zero_add]


theorem parseUnsigned_natChars (n : ℕ) : parseUnsigned (natChars n) = n := by
  unfold parseUnsigned
  rw [splitOn_dot_single (fun c hc => (mem_digitChars_ne (natChars_mem_digitChars hc)).2.1)]
  rw [parseNatChars_natChars]


theorem natChars_head_not_dash (n : ℕ) : (natChars n).head? ≠ some '-' := by
  obtain ⟨c, cs, hcons⟩ := List.exists_cons_of_ne_nil (natChars_ne_nil n)
  rw [hcons]
  have hc : c ∈ natChars n := by
    rw [hcons]
    exact List.mem_cons_self c cs
  simpa using (mem_digitChars_ne (natChars_mem_digitChars hc)).1


theorem parseRatChars_intChars (m : ℤ) : parseRatChars (intChars m) = (m : ℚ) := by
  unfold intChars parseRatChars
  by_cases hm : m < 0
  · rw [if_pos hm, if_pos (by rfl)]
    simp only [List.tail_cons, parseUnsigned_natChars]
    rw [Int.cast_natAbs, abs_of_neg hm]
    push_cast
    ring
  · rw [if_neg hm, if_neg (natChars_head_not_dash _), parseUnsigned_natChars]
    rw [Int.cast_natAbs, abs_of_nonneg (not_lt.mp hm)]


theorem parseRatChars_pointed (m : ℤ) (s' : List Char) (k : ℕ)
    (hdigits : ∀ c ∈ s', c ∈ digitChars) (hlen : k + 1 < s'.length) :
    parseRatChars ((if m < 0 then ['-'] else []) ++
        s'.take (s'.length - (k + 1)) ++ '.' :: s'.drop (s'.length - (k + 1)))
      = (if m < 0 then -(parseNatChars s' : ℚ) else (parseNatChars s' : ℚ)) / 10 ^ (k + 1) := by
  set j := s'.length - (k + 1) with hj
  have hip_digits : ∀ c ∈ s'.take j, c ∈ digitChars :=
    fun c hc => hdigits c (List.mem_of_mem_take hc)
  have hfp_digits : ∀ c ∈ s'.drop j, c ∈ digitChars :=
    fun c hc => hdigits c (List.mem_of_mem_drop hc)
  have hfplen : (s'.drop j).length = k + 1 := by
    simp only [List.length_drop, hj]
    omega
  have hsplit : ((s'.take j) ++ '.' :: (s'.drop j)).splitOn '.' = [s'.take j, s'.drop j] :=
    splitOn_dot_pair (fun c hc => (mem_digitChars_ne (hip_digits c hc)).2.1)
      (fun c hc => (mem_digitChars_ne (hfp_digits c hc)).2.1)
  have hUnsigned : parseUnsigned ((s'.take j) ++ '.' :: (s'.drop j))
      = (parseNatChars s' : ℚ) / 10 ^ (k + 1) := by
    unfold parseUnsigned
    rw [hsplit]
    show ((parseNatChars (s'.take j) : ℚ) * 10 ^ (s'.drop j).length
        + (parseNatChars (s'.drop j) : ℚ)) / 10 ^ (s'.drop j).length
      = (parseNatChars s' : ℚ) / 10 ^ (k + 1)
    rw [hfplen]
    have hre : parseNatChars (s'.take j ++ s'.drop j) = parseNatChars s' := by
      rw [List.take_append_drop]
    rw [← hre, parseNatChars_append, hfplen]
    push_cast
    ring
  by_cases hneg : m < 0
  · rw [if_pos hneg, if_pos hneg]
    show parseRatChars ('-' :: (s'.take j ++ '.' :: s'.drop j)) = _
    unfold parseRatChars
    rw [if_pos (by simp)]
    simp only [List.tail_cons]
    rw [hUnsigned]
    ring
  · rw [if_neg hneg, if_neg hneg]
    simp only [List.nil_append]
    unfold parseRatChars
    rw [if_neg ?hd]
    · exact hUnsigned
    case hd =>
      have hipne : s'.take j ≠ [] := by
        intro h
        have hlen' := congrArg List.length h
        simp only [List.length_take, List.length_nil] at hlen'
        omega
      obtain ⟨c, cs, hcons⟩ := List.exists_cons_of_ne_nil hipne
      rw [hcons]
      simp only [List.cons_append, List.head?_cons]
      have hcmem : c ∈ digitChars := hip_digits c (by rw [hcons]; exact List.mem_cons_self c cs)
      simpa using (mem_digitChars_ne hcmem).1


theorem parseRatChars_pointedChars (m : ℤ) (k : ℕ) :
    parseRatChars (pointedChars m k) = (m : ℚ) / 10 ^ (k + 1) := by
  have hs1 : 1 ≤ (natChars m.natAbs).length :=
    List.length_pos.mpr (natChars_ne_nil _)
  have hdigits : ∀ c ∈ List.replicate (k + 2 - (natChars m.natAbs).length) '0' ++ natChars m.natAbs,
      c ∈ digitChars := by
    intro c hc
    rcases List.mem_append.mp hc with h | h
    · rw [List.eq_of_mem_replicate h]
      decide
    · exact natChars_mem_digitChars h
  have hlen : k + 1 < (List.replicate (k + 2 - (natChars m.natAbs).length) '0' ++ natChars m.natAbs).length := by
    simp only [List.length_append, List.length_replicate]
    omega
  have hparse : parseNatChars (List.replicate (k + 2 - (natChars m.natAbs).length) '0' ++ natChars m.natAbs)
      = m.natAbs := by
    rw [parseNatChars_pad, parseNatChars_natChars]
  simp only [pointedChars]
  rw [parseRatChars_pointed m _ k hdigits hlen, hparse]
  by_cases hm : m < 0
  · rw [if_pos hm, Int.cast_natAbs, abs_of_neg hm]
    push_cast
    ring
  · rw [if_neg hm, Int.cast_natAbs, abs_of_nonneg (not_lt.mp hm)]


/-- Rendering a rational with a finite decimal expansion and parsing the
resulting numeral recovers the rational exactly: the numeric losslessness of
the export format. -/
theorem parseRatChars_ratChars (q : ℚ) {k : ℕ} (hk : decExp q.den = some k) :
    parseRatChars (ratChars q) = q := by
  have hdvd : q.den ∣ 10 ^ k := by
    have h := List.find?_some hk
    simpa using h
  cases k with
  | zero =>
    rw [show ratChars q = intChars q.num from by unfold ratChars; rw [hk]]
    rw [parseRatChars_intChars]
    have hden : q.den = 1 := Nat.dvd_one.mp (by simpa using hdvd)
    have hq := Rat.num_div_den q
    rw [hden] at hq
    simpa using hq
  | succ k =>
    rw [show ratChars q = pointedChars (q.num * 10 ^ (k + 1) / (q.den : ℤ)) k from by
      unfold ratChars; rw [hk]]
    rw [parseRatChars_pointedChars]
    have hdvd10 : (q.den : ℤ) ∣ (10 : ℤ) ^ (k + 1) := by
      have := Int.natCast_dvd_natCast.mpr hdvd
      push_cast at this
      exact this
    have hdvd' : (q.den : ℤ) ∣ q.num * 10 ^ (k + 1) := Dvd.dvd.mul_left hdvd10 q.num
    have hexact : q.num * 10 ^ (k + 1) / (q.den : ℤ) * (q.den : ℤ) = q.num * 10 ^ (k + 1) :=
      Int.ediv_mul_cancel hdvd'
    have hden0 : ((q.den : ℚ)) ≠ 0 := by
      exact_mod_cast q.den_nz
    rw [div_eq_iff (pow_ne_zero _ (by norm_num : (10 : ℚ) ≠ 0))]
    apply mul_right_cancel₀ hden0
    have h1 : ((q.num * 10 ^ (k + 1) / (q.den : ℤ) : ℤ) : ℚ) * (q.den : ℚ)
        = (q.num : ℚ) * (10 : ℚ) ^ (k + 1) := by
      exact_mod_cast hexact
    have h2 : (q.num : ℚ) = q * (q.den : ℚ) := (div_eq_iff hden0).mp (Rat.num_div_den q)
    rw [h1, h2]
    ring


theorem csv_escape_eq_self {s : String} (h : CleanCell s) : csv_escape s = s := by
  have hq : csv_quote_needed s = false := by
    unfold csv_quote_needed
    rw [List.any_eq_false]
    intro c hc
    obtain ⟨h1, h2, h3, h4⟩ := h c hc
    simp [h1, h2, h3, h4]
  simp [csv_escape, hq]


theorem parse_csv_row_csv_row (cells : List String) (hne : cells ≠ [])
    (hclean : ∀ s ∈ cells, CleanCell s) :
    parse_csv_row (csv_row cells) = cells := by
  unfold parse_csv_row csv_row
  have hmap : cells.map (fun s => (csv_escape s).data) = cells.map String.data := by
    apply List.map_congr_left
    intro s hs
    rw [csv_escape_eq_self (hclean s hs)]
  show ((List.intercalate [','] (cells.map fun s => (csv_escape s).data)).splitOn ',').map
      (fun l => (⟨l⟩ : String)) = cells
  rw [hmap]
  rw [List.splitOn_intercalate _ ',' ?hx ?hls]
  · rw [List.map_map]
    have : (fun l => (⟨l⟩ : String)) ∘ String.data = id := by
      funext s
      rfl
    rw [this, List.map_id]
  case hx =>
    intro l hl
    rw [List.mem_map] at hl
    obtain ⟨s, hs, rfl⟩ := hl
    intro hc
    exact ((hclean s hs) ',' hc).1 rfl
  case hls =>
    simpa using hne


/-- C3 counterexample: on a concrete one-entry log the export's header row is
the full 18-column record order — its first ten fields are NOT
`timestamp,...,description,wind_speed,status` (the ninth column is `main`) —
and the entry's comma-carrying description field is quoted, so the data row
differs from the plain unescaped comma-join of the raw field values. -/
theorem export_csv_counterexample :
    save_weather_logs_csv [rainyEntry]
      = csv_row header_cells ++ "\n" ++ csv_row (entry_cells rainyEntry) ++ "\n" ∧
    (parse_csv_row (csv_row header_cells)).take 10
      ≠ ["timestamp", "city", "country", "temperature", "feels_like", "humidity",
         "pressure", "description", "wind_speed", "status"] ∧
    (parse_csv_row (csv_row header_cells)).get? 8 = some ("main") ∧
    csv_escape ("light rain, mist") ≠ "light rain, mist" ∧
    csv_row (entry_cells rainyEntry)
      ≠ ⟨List.intercalate [','] ((entry_cells rainyEntry).map String.data)⟩ := by
  refine ⟨?_, by decide, by decide, by decide, by decide⟩
  set_option maxRecDepth 10000 in decide


/-- C3 amended: the export emits a header row naming all 18 record fields in
dictionary-key order (`timestamp,city,country,temperature,feels_like,
humidity,pressure,description,main,wind_speed,wind_direction,visibility,
clouds,sunrise,sunset,coord_lat,coord_lon,status`), followed by exactly one
row per log entry in insertion order, fields comma-separated with minimal
quoting (a field containing a separator, quote or line break is wrapped in
double quotes; all others are emitted verbatim), and for entries whose fields
contain no separator, splitting each row on commas recovers every field value
exactly; numeric field values are emitted losslessly — parsing the rendered
decimal recovers the identical rational. -/
theorem export_csv_spec (log : WeatherLog) (hne : log ≠ [])
    (hclean : ∀ e ∈ log, ∀ s ∈ entry_cells e, CleanCell s) :
    save_weather_logs_csv log
      = String.join ((csv_row header_cells :: log.map fun e => csv_row (entry_cells e)).map
          (· ++ "\n")) ∧
    (csv_row header_cells :: log.map fun e => csv_row (entry_cells e)).length
      = log.length + 1 ∧
    parse_csv_row (csv_row header_cells) = header_cells ∧
    (log.map fun e => parse_csv_row (csv_row (entry_cells e))) = log.map entry_cells ∧
    (∀ q : ℚ, ∀ k, decExp q.den = some k → parseRat (renderRat q) = q) := by
  refine ⟨?_, by simp, ?_, ?_, ?_⟩
  · rw [save_weather_logs_csv, if_neg (by simpa using hne)]
  · apply parse_csv_row_csv_row _ (by simp [header_cells])
    decide
  · apply List.map_congr_left
    intro e he
    exact parse_csv_row_csv_row _ (by simp [entry_cells]) (hclean e he)
  · intro q k hk
    exact parseRatChars_ratChars q hk


theorem export_csv_spec_witness :
    save_weather_logs_csv [csvEntry]
      = String.join ((csv_row header_cells :: [csvEntry].map fun e => csv_row (entry_cells e)).map
          (· ++ "\n")) ∧
    (csv_row header_cells :: [csvEntry].map fun e => csv_row (entry_cells e)).length
      = [csvEntry].length + 1 ∧
    parse_csv_row (csv_row header_cells) = header_cells ∧
    ([csvEntry].map fun e => parse_csv_row (csv_row (entry_cells e))) = [csvEntry].map entry_cells ∧
    (∀ q : ℚ, ∀ k, decExp q.den = some k → parseRat (renderRat q) = q) :=
  export_csv_spec [csvEntry] (by simp) (by decide)


/-- C9: every derived view of an empty log — in particular immediately after
a clear — returns its defined empty or neutral result: the views are total
functions (so they never raise), the export of an empty log is the empty
string, the analytics tab shows its explicit no-data state, and the latest
lookup is the explicit empty result. -/
theorem empty_log_views_defined (log : WeatherLog) :
    tab2_analytics (clear_logs log) = .noData ∧
    save_weather_logs_csv (clear_logs log) = "" ∧
    latest_weather (clear_logs log) = none ∧
    tab2_analytics [] = .noData ∧
    save_weather_logs_csv [] = "" ∧
    scan_alerts [] = [] ∧
    condition_counts [] = [] ∧
    city_comparison [] = none ∧
    unique_cities [] = [] :=
  ⟨rfl, rfl, rfl, rfl, rfl, rfl, rfl, rfl, rfl⟩


/-- C2: the forecast extraction returns only points within 12 hours of call
time, at most 12 of them, as a sublist of the provider series (hence in
provider order); buckets at +3h, +6h, +9h, +12h, +15h yield exactly the
first four. -/
theorem forecast_window_spec (now : ℤ) (items : List ForecastPoint) :
    (∀ p ∈ process_forecast now items, now ≤ p.dt ∧ p.dt ≤ now + 12 * 3600) ∧
    (process_forecast now items).length ≤ 12 ∧
    (process_forecast now items).Sublist items ∧
    (∀ t1 t2 t3 t4 t5 : ℚ,
      process_forecast now
        [⟨now + 3 * 3600, t1⟩, ⟨now + 6 * 3600, t2⟩, ⟨now + 9 * 3600, t3⟩,
         ⟨now + 12 * 3600, t4⟩, ⟨now + 15 * 3600, t5⟩]
        = [⟨now + 3 * 3600, t1⟩, ⟨now + 6 * 3600, t2⟩, ⟨now + 9 * 3600, t3⟩,
           ⟨now + 12 * 3600, t4⟩]) := by
  refine ⟨?_, ?_, ?_, ?_⟩
  · intro p hp
    have hp' := List.mem_of_mem_take hp
    have := (List.mem_filter.mp hp').2
    simp only [Bool.and_eq_true, decide_eq_true_eq] at this
    exact this
  · exact List.length_take_le 12 _
  · exact ((List.take_sublist _ _).trans (List.filter_sublist _)).trans (List.take_sublist _ _)
  · intro t1 t2 t3 t4 t5
    unfold process_forecast
    norm_num [List.take, List.filter]


theorem forecast_window_spec_witness :
    (0 : ℤ) ≤ (⟨10800, 15⟩ : ForecastPoint).dt ∧
    (⟨10800, 15⟩ : ForecastPoint).dt ≤ (0 : ℤ) + 12 * 3600 :=
  (forecast_window_spec 0 [⟨10800, 15⟩]).1 ⟨10800, 15⟩ (by decide)


/-- C6: every fetch failure — provider rejection, timeout, transport failure
or a 200 response missing an expected field — comes back as a tagged error
result; exactly one provider call is consumed whatever the outcome (no
retry); a failed fetch leaves the log exactly unchanged and a successful one
appends exactly the fetched entry. -/
theorem fetch_errors_tagged (now : String) (o : HttpOutcome) (rest : List HttpOutcome)
    (log : WeatherLog) :
    (fetch_and_log now o rest log).2.2 = rest ∧
    get_weather_data now .timeout = .error ("Request timed out") ∧
    (∀ m, get_weather_data now (.netError m) = .error ("Network error: " ++ m)) ∧
    (∀ st d, st ≠ 200 →
      get_weather_data now (.response st d)
        = .error ("API Error: " ++ (d.message.getD ("Unknown error")))) ∧
    (∀ d, extract_entry now d = none →
      get_weather_data now (.response 200 d) = .error ("Error: missing expected field")) ∧
    (∀ m, (fetch_and_log now o rest log).2.1 = .error m →
      (fetch_and_log now o rest log).1 = log) ∧
    (∀ e, (fetch_and_log now o rest log).2.1 = .ok e →
      (fetch_and_log now o rest log).1 = log ++ [e]) := by
  refine ⟨?_, rfl, fun m => rfl, ?_, ?_, ?_, ?_⟩
  · unfold fetch_and_log
    rcases get_weather_data now o with e | m <;> rfl
  · intro st d hst
    simp [get_weather_data, hst]
  · intro d hd
    simp [get_weather_data, hd]
  · intro m hm
    unfold fetch_and_log at *
    rcases h : get_weather_data now o with e | m'
    · rw [h] at hm
      exact absurd hm (by simp)
    · rfl
  · intro e he
    unfold fetch_and_log at *
    rcases h : get_weather_data now o with e' | m'
    · rw [h] at he
      simp only [FetchResult.ok.injEq] at he
      subst he
      rfl
    · rw [h] at he
      exact absurd he (by simp)


theorem fetch_errors_tagged_witness :
    (fetch_and_log ("2024-01-01 12:00") .timeout [] [demoEntry]).1 = [demoEntry] :=
  (fetch_errors_tagged ("2024-01-01 12:00") .timeout [] [demoEntry]).2.2.2.2.2.1
    "Request timed out" rfl


/-- C10: a successfully normalized entry always carries numeric
wind-direction and visibility values: `wind_direction` is the provider value
or 0 when absent, `visibility` is the provider value divided by 1000
(metres to kilometres) or 0 when absent. -/
theorem normalization_defaults (now : String) (d : WeatherJson) (e : WeatherEntry)
    (h : extract_entry now d = some e) :
    e.wind_direction = d.wind_deg.getD 0 ∧
    e.visibility = (d.visibility.getD 0) / 1000 ∧
    (d.wind_deg = none → e.wind_direction = 0) ∧
    (d.visibility = none → e.visibility = 0) := by
  unfold extract_entry at h
  split at h
  · rw [Option.some.injEq] at h
    subst h
    refine ⟨rfl, rfl, ?_, ?_⟩
    · intro h0
      rw [h0]
      rfl
    · intro h0
      rw [h0]
      show ((Option.getD none 0 : ℚ)) / 1000 = 0
      norm_num
  · exact absurd h (by simp)


theorem normalization_defaults_witness :
    extract_entry ("2024-01-01 12:00") sparseJson = some sparseEntry ∧
    sparseEntry.wind_direction = 0 ∧
    sparseEntry.visibility = 0 := by
  have h : extract_entry ("2024-01-01 12:00") sparseJson = some sparseEntry := rfl
  exact ⟨h, (normalization_defaults ("2024-01-01 12:00") sparseJson sparseEntry h).2.2.1 rfl,
    (normalization_defaults ("2024-01-01 12:00") sparseJson sparseEntry h).2.2.2 rfl⟩


end WeatherApp
